import Mathlib

/-!
# Verification of the render-loop driver core of `threejs-starter`

Shallow embedding of the performance/render-loop logic of the repository
(`limitFrameRate`, `dynamicResolutionScaling`, `manageResourceIntensiveObjects`,
`optimizeRenderLoop`, `renderWithComposer`) and proofs of the specified
properties.  Timestamps, intervals and pixel ratios are modelled as rationals;
JavaScript's `%` on numbers is the truncated-division remainder, embedded as
`jsMod` below.
-/

/-- Truncation of a rational towards zero, as JavaScript division underlying `%`
truncates towards zero. -/
def qtrunc (q : ℚ) : ℤ := if 0 ≤ q then ⌊q⌋ else ⌈q⌉

/-- JavaScript's `%` on numbers: `a % b = a - b * trunc (a / b)` (remainder of
truncated division, sign of the dividend). -/
def jsMod (a b : ℚ) : ℚ := a - b * (qtrunc (a / b) : ℚ)

/-- State closed over by `limitFrameRate` (src/unnamed/part_002, lines 35-49):
`lastTime` is the mutable last-accepted timestamp, `fpsInterval` the constant
`1000 / fps`. -/
structure LimiterState where
  lastTime : ℚ
  fpsInterval : ℚ
  deriving Repr, DecidableEq

/-- The initial state set up by `limitFrameRate(renderFunction, fps)`:
`let lastTime = 0; const fpsInterval = 1000 / fps;`.  The source performs no
validation of `fps` — construction always yields this state. -/
def limitFrameRateInit (fps : ℚ) : LimiterState :=
  { lastTime := 0, fpsInterval := 1000 / fps }

/-- One invocation of `limitFrameRate`'s `loop(time)` body:
`delta = time - lastTime; if (delta > fpsInterval) { lastTime = time - (delta % fpsInterval); renderFunction(); }`.
Returns the updated state and whether `renderFunction` was invoked. -/
def limiterTick (s : LimiterState) (time : ℚ) : LimiterState × Bool :=
  if s.fpsInterval < time - s.lastTime then
    ({ lastTime := time - jsMod (time - s.lastTime) s.fpsInterval,
       fpsInterval := s.fpsInterval }, true)
  else
    (s, false)

/-- Acceptance flags produced by running the limiter over a sequence of tick
timestamps. -/
def limiterRun (s : LimiterState) : List ℚ → List Bool
  | [] => []
  | t :: ts => (limiterTick s t).2 :: limiterRun (limiterTick s t).1 ts

/-- The sequence of limiter states observed across a sequence of ticks
(initial state included). -/
def limiterTrace (s : LimiterState) : List ℚ → List LimiterState
  | [] => [s]
  | t :: ts => s :: limiterTrace (limiterTick s t).1 ts

/-- On an accepted tick the subtracted remainder term is non-negative, so
`lastTime` cannot move backwards: `0 ≤ b * trunc (d / b)` whenever `b < d`. -/
theorem qtrunc_mul_nonneg {b d : ℚ} (h : b < d) : 0 ≤ b * (qtrunc (d / b) : ℚ) := by
  rcases lt_trichotomy b 0 with hb | hb | hb
  · rcases le_or_lt 0 d with hd | hd
    · have hq : d / b ≤ 0 := div_nonpos_iff.mpr (Or.inl ⟨hd, hb.le⟩)
      have hle : (qtrunc (d / b) : ℚ) ≤ 0 := by
        unfold qtrunc
        split
        · rename_i h0
          have hz : d / b = 0 := le_antisymm hq h0
          simp [hz]
        · have hc : ⌈d / b⌉ ≤ 0 := Int.ceil_le.mpr (by exact_mod_cast hq)
          exact_mod_cast hc
      exact mul_nonneg_of_nonpos_of_nonpos hb.le hle
    · have hq0 : 0 < d / b := div_pos_iff.mpr (Or.inr ⟨hd, hb⟩)
      have hq1 : d / b < 1 := by
        rw [div_lt_iff_of_neg hb]
        simpa using h
      have hz : qtrunc (d / b) = 0 := by
        unfold qtrunc
        rw [if_pos hq0.le]
        exact Int.floor_eq_zero_iff.mpr ⟨hq0.le, hq1⟩
      simp [hz]
  · simp [hb]
  · have hd : 0 < d := hb.trans h
    have hq : 0 ≤ d / b := (div_pos hd hb).le
    have hge : 0 ≤ (qtrunc (d / b) : ℚ) := by
      unfold qtrunc
      rw [if_pos hq]
      exact_mod_cast Int.floor_nonneg.mpr hq
    exact mul_nonneg hb.le hge

/-- A single tick never decreases `lastTime`. -/
theorem limiterTick_lastTime_mono (s : LimiterState) (t : ℚ) :
    s.lastTime ≤ (limiterTick s t).1.lastTime := by
  unfold limiterTick
  split
  · rename_i h
    have h2 := qtrunc_mul_nonneg h
    unfold jsMod
    simp only
    linarith
  · exact le_refl _

/-- The state trace always starts at the initial state. -/
theorem limiterTrace_head (s : LimiterState) (ts : List ℚ) :
    (limiterTrace s ts).head? = some s := by
  cases ts <;> rfl

/-- The `lastTime` values along any trace form a `≤`-chain. -/
theorem limiterTrace_lastTime_chain (s : LimiterState) (ts : List ℚ) :
    ((limiterTrace s ts).map LimiterState.lastTime).Chain' (· ≤ ·) := by
  induction ts generalizing s with
  | nil => simp [limiterTrace]
  | cons t ts ih =>
    rw [limiterTrace, List.map_cons]
    refine List.chain'_cons'.mpr ⟨?_, ih _⟩
    intro y hy
    rw [List.head?_map, limiterTrace_head] at hy
    simp only [Option.map_some', Option.mem_def, Option.some.injEq] at hy
    subst hy
    exact limiterTick_lastTime_mono s t

/-- C7: for every monotonically increasing sequence of tick timestamps, the
frame-rate limiter's last-accepted timestamp (`lastTime`) is monotonically
non-decreasing across ticks: each tick leaves it unchanged or increases it. -/
theorem frameRateLimiter_lastTime_monotone (fps : ℚ) (ts : List ℚ)
    (_hmono : ts.Chain' (· < ·)) :
    ((limiterTrace (limitFrameRateInit fps) ts).map LimiterState.lastTime).Chain' (· ≤ ·) :=
  limiterTrace_lastTime_chain _ ts

/-- Witness for C7 at fps 30 and ticks 10, 50. -/
theorem frameRateLimiter_lastTime_monotone_witness :
    ([10, 50] : List ℚ).Chain' (· < ·) ∧
    ((limiterTrace (limitFrameRateInit 30) [10, 50]).map LimiterState.lastTime).Chain'
      (· ≤ ·) := by
  have hm : ([10, 50] : List ℚ).Chain' (· < ·) := by norm_num
  exact ⟨hm, frameRateLimiter_lastTime_monotone 30 [10, 50] hm⟩

/-- C1 (as stated) is false on the code: with target interval 16 ms (fps 62.5)
and ticks 0, 10, 20, the produced acceptance flags are not
`[accept, skip, accept]` (the tick at t = 0 is skipped, since the code uses a
strict comparison and elapsed is 0 there); moreover a tick whose elapsed time
exactly equals the interval is skipped, refuting the claimed "≥" criterion. -/
theorem frameRateLimiter_claim_counterexample :
    limiterRun (limitFrameRateInit (125 / 2)) [0, 10, 20] ≠ [true, false, true] ∧
    limiterRun (limitFrameRateInit (125 / 2)) [16] = [false] := by
  norm_num [limiterRun, limiterTick, limitFrameRateInit, jsMod, qtrunc]

/-- C1 amended: a tick is accepted (the render function is invoked) iff the
elapsed time since the last accepted timestamp is strictly greater than the
target interval; with `lastTime` initialised to 0 and interval 16 ms, ticks at
0, 10, 20 yield skip, skip, accept. -/
theorem frameRateLimiter_accepts_iff :
    (∀ (s : LimiterState) (t : ℚ),
        (limiterTick s t).2 = true ↔ s.fpsInterval < t - s.lastTime) ∧
    limiterRun (limitFrameRateInit (125 / 2)) [0, 10, 20] = [false, false, true] := by
  constructor
  · intro s t
    unfold limiterTick
    split
    · rename_i h
      simp [h]
    · rename_i h
      simp [h]
  · norm_num [limiterRun, limiterTick, limitFrameRateInit, jsMod, qtrunc]

/-- C6: whenever the limiter accepts a tick at timestamp `t`, the new
`lastTime` equals `t - (elapsed % fpsInterval)` where
`elapsed = t - lastTime`. -/
theorem frameRateLimiter_accept_updates_lastTime (s : LimiterState) (t : ℚ)
    (h : (limiterTick s t).2 = true) :
    (limiterTick s t).1.lastTime = t - jsMod (t - s.lastTime) s.fpsInterval := by
  unfold limiterTick at h ⊢
  split at h
  · rename_i hc
    rw [if_pos hc]
  · simp at h

/-- Witness for C6 at fps 30 (interval 100/3) and an accepted tick t = 100. -/
theorem frameRateLimiter_accept_updates_lastTime_witness :
    (limiterTick (limitFrameRateInit 30) 100).2 = true ∧
    (limiterTick (limitFrameRateInit 30) 100).1.lastTime =
      100 - jsMod (100 - (limitFrameRateInit 30).lastTime)
        (limitFrameRateInit 30).fpsInterval := by
  have h : (limiterTick (limitFrameRateInit 30) 100).2 = true := by
    norm_num [limiterTick, limitFrameRateInit]
  exact ⟨h, frameRateLimiter_accept_updates_lastTime _ _ h⟩

/-- C4 (as stated) is false on the code: `limitFrameRate` performs no
construction-time validation.  With fps = -30 the target interval is
-100/3 ≤ 0, the limiter state is produced anyway, and the tick at t = 10
invokes the render function. -/
theorem limiter_no_validation_counterexample :
    limitFrameRateInit (-30) = { lastTime := 0, fpsInterval := -100 / 3 } ∧
    (limiterTick (limitFrameRateInit (-30)) 10).2 = true := by
  constructor
  · unfold limitFrameRateInit
    norm_num
  · norm_num [limiterTick, limitFrameRateInit]

/-- C4 amended: construction never fails; for every fps (including those giving
a non-positive target interval) the limiter state is produced, and every tick
whose timestamp exceeds the interval invokes the render function. -/
theorem limiter_no_validation (fps t : ℚ) (h : 1000 / fps < t) :
    (limiterTick (limitFrameRateInit fps) t).2 = true := by
  have hc : (limitFrameRateInit fps).fpsInterval <
      t - (limitFrameRateInit fps).lastTime := by
    simp only [limitFrameRateInit, sub_zero]
    exact h
  unfold limiterTick
  rw [if_pos hc]

/-- Witness for C4's amended claim at fps = -30, t = 10. -/
theorem limiter_no_validation_witness :
    (1000 : ℚ) / (-30) < 10 ∧
    (limiterTick (limitFrameRateInit (-30)) 10).2 = true := by
  have h : (1000 : ℚ) / (-30) < 10 := by norm_num
  exact ⟨h, limiter_no_validation (-30) 10 h⟩

/-- One `adjustResolution` step of `dynamicResolutionScaling`
(src/unnamed/part_002, lines 73-91): given the base pixel ratio captured once
at setup (`window.devicePixelRatio || 1`) and the current fps sample, returns
the pixel ratio written to the renderer this frame, if any:
`if (fps < 30) setPixelRatio(Math.max(0.5, basePixelRatio - 0.5));
 else if (fps > 50) setPixelRatio(Math.min(2, basePixelRatio + 0.5));`. -/
def adjustResolution (basePixelRatio fps : ℚ) : Option ℚ :=
  if fps < 30 then some (max (1 / 2) (basePixelRatio - 1 / 2))
  else if 50 < fps then some (min 2 (basePixelRatio + 1 / 2))
  else none

/-- The pixel ratios written to the renderer over a sequence of per-frame fps
samples (frames in the hysteresis band write nothing). -/
def scalingWrites (basePixelRatio : ℚ) (fpsSamples : List ℚ) : List ℚ :=
  fpsSamples.filterMap (adjustResolution basePixelRatio)

/-- C2 (as stated) is false on the code: the scaler keeps no evolving scale
state but always works from the fixed base ratio, so with base 1 and fps
samples 20, 20, 60, 60 the written ratios are 1/2, 1/2, 3/2, 3/2 — not the
claimed 0.5, 0.5, 1.0, 1.5; and with base 3 a low-fps frame writes 5/2,
outside the claimed bounds [1/2, 2]. -/
theorem resolutionScaler_claim_counterexample :
    scalingWrites 1 [20, 20, 60, 60] ≠ [1 / 2, 1 / 2, 1, 3 / 2] ∧
    scalingWrites 3 [20] = [5 / 2] := by
  norm_num [scalingWrites, adjustResolution, List.filterMap]

/-- C2 amended: whenever the base pixel ratio lies in [0, 5/2], every ratio
the scaler writes lies in [1/2, 2]; and with base 1 and fps samples
20, 20, 60, 60 the written ratios are 1/2, 1/2, 3/2, 3/2. -/
theorem resolutionScaler_bounds (base : ℚ) (h0 : 0 ≤ base) (h1 : base ≤ 5 / 2)
    (fpsSamples : List ℚ) :
    (∀ r ∈ scalingWrites base fpsSamples, 1 / 2 ≤ r ∧ r ≤ 2) ∧
    scalingWrites 1 [20, 20, 60, 60] = [1 / 2, 1 / 2, 3 / 2, 3 / 2] := by
  constructor
  · intro r hr
    rw [scalingWrites, List.mem_filterMap] at hr
    obtain ⟨fps, -, hadj⟩ := hr
    rw [adjustResolution] at hadj
    split at hadj
    · rw [Option.some.injEq] at hadj
      subst hadj
      constructor
      · exact le_max_left _ _
      · apply max_le <;> linarith
    · split at hadj
      · rw [Option.some.injEq] at hadj
        subst hadj
        constructor
        · apply le_min <;> linarith
        · exact min_le_left _ _
      · exact absurd hadj (by simp)
  · norm_num [scalingWrites, adjustResolution, List.filterMap]

/-- Witness for C2's amended claim at base 1 and fps samples 20, 60. -/
theorem resolutionScaler_bounds_witness :
    (0 : ℚ) ≤ 1 ∧ (1 : ℚ) ≤ 5 / 2 ∧
    (∀ r ∈ scalingWrites 1 [20, 60], 1 / 2 ≤ r ∧ r ≤ 2) := by
  refine ⟨by norm_num, by norm_num, ?_⟩
  exact (resolutionScaler_bounds 1 (by norm_num) (by norm_num) [20, 60]).1

/-- C10: every ratio the scaler ever writes is computed from the fixed base
ratio, never from the previously applied value: it is either
`max (1/2) (base - 1/2)` (low-fps frame) or `min 2 (base + 1/2)` (high-fps
frame), so across any fps sequence at most two distinct values occur and
adjustments never accumulate. -/
theorem resolutionScaler_two_values (base : ℚ) (fpsSamples : List ℚ) (r : ℚ)
    (hr : r ∈ scalingWrites base fpsSamples) :
    r = max (1 / 2) (base - 1 / 2) ∨ r = min 2 (base + 1 / 2) := by
  rw [scalingWrites, List.mem_filterMap] at hr
  obtain ⟨fps, -, hadj⟩ := hr
  rw [adjustResolution] at hadj
  split at hadj
  · exact Or.inl (Option.some.injEq _ _ ▸ hadj.symm)
  · split at hadj
    · exact Or.inr (Option.some.injEq _ _ ▸ hadj.symm)
    · exact absurd hadj (by simp)

/-- Witness for C10 at base 1 with a single low-fps sample. -/
theorem resolutionScaler_two_values_witness :
    (1 / 2 : ℚ) ∈ scalingWrites 1 [20] ∧
    ((1 / 2 : ℚ) = max (1 / 2) (1 - 1 / 2) ∨ (1 / 2 : ℚ) = min 2 (1 + 1 / 2)) := by
  have hm : (1 / 2 : ℚ) ∈ scalingWrites 1 [20] := by
    norm_num [scalingWrites, adjustResolution, List.filterMap]
  exact ⟨hm, resolutionScaler_two_values 1 [20] (1 / 2) hm⟩

/-- A managed renderable handle (`THREE.Object3D`) as the culler sees it: a
mutable boolean `visible` flag plus the rest of the object (geometry, material,
transform, bounding volume), which the culler only reads. -/
structure Object3D (α : Type) where
  visible : Bool
  data : α
  deriving Repr, DecidableEq

/-- One per-frame `update` of `manageResourceIntensiveObjects`
(src/unnamed/part_002, lines 99-123): the frustum is recomputed from the
camera's current view-projection transform, then for each managed object
`if (!frustum.intersectsObject(object)) object.visible = false; else object.visible = true;`.
The three.js frustum derivation and bounding-volume intersection test are
external library calls, modelled by the parameters `viewProjection` (camera
state to frustum) and `intersects` (frustum against the object's non-flag
data). -/
def cullerUpdate {γ μ α : Type} (viewProjection : γ → μ)
    (intersects : μ → α → Bool) (camera : γ)
    (objects : List (Object3D α)) : List (Object3D α) :=
  let frustum := viewProjection camera
  objects.map fun o =>
    if intersects frustum o.data = false then { o with visible := false }
    else { o with visible := true }

/-- C3: after every culler update, each managed object's visibility flag equals
the frustum-intersection test result on that object: false exactly when the
object does not intersect the frustum derived from the camera's current
view-projection transform, true when it intersects or lies inside. -/
theorem visibilityCuller_flag_iff_intersects {γ μ α : Type}
    (viewProjection : γ → μ) (intersects : μ → α → Bool) (camera : γ)
    (objects : List (Object3D α)) :
    (cullerUpdate viewProjection intersects camera objects).map Object3D.visible =
      objects.map fun o => intersects (viewProjection camera) o.data := by
  unfold cullerUpdate
  rw [List.map_map]
  refine List.map_congr_left ?_
  intro o _
  cases h : intersects (viewProjection camera) o.data <;> simp [h]

/-- C8: the culler update is idempotent — with camera and object data unchanged,
running the update twice gives the same visibility flags as running it once. -/
theorem visibilityCuller_idempotent {γ μ α : Type}
    (viewProjection : γ → μ) (intersects : μ → α → Bool) (camera : γ)
    (objects : List (Object3D α)) :
    cullerUpdate viewProjection intersects camera
        (cullerUpdate viewProjection intersects camera objects) =
      cullerUpdate viewProjection intersects camera objects := by
  unfold cullerUpdate
  rw [List.map_map]
  refine List.map_congr_left ?_
  intro o _
  cases h : intersects (viewProjection camera) o.data <;> simp [h]

/-- C9: the culler update mutates only the visibility flag: every object's
non-flag data (geometry, material, bounding volume) is unchanged, and the
managed list keeps its length — objects are hidden, never removed or
destroyed. -/
theorem visibilityCuller_only_flag {γ μ α : Type}
    (viewProjection : γ → μ) (intersects : μ → α → Bool) (camera : γ)
    (objects : List (Object3D α)) :
    (cullerUpdate viewProjection intersects camera objects).map Object3D.data =
        objects.map Object3D.data ∧
      (cullerUpdate viewProjection intersects camera objects).length =
        objects.length := by
  constructor
  · unfold cullerUpdate
    rw [List.map_map]
    refine List.map_congr_left ?_
    intro o _
    cases h : intersects (viewProjection camera) o.data <;> simp [h]
  · unfold cullerUpdate
    simp

/-- The observable steps inside one invocation of a render-loop body:
requesting the next animation frame, or running one of the pieces of
per-frame work. -/
inductive FrameAction where
  | scheduleNext
  | runRender
  | runCustomRender
  | runComposerRender
  deriving Repr, DecidableEq

/-- Body of `optimizeRenderLoop`'s `loop` (src/unnamed/part_002, lines 21-27):
`requestAnimationFrame(loop); renderFunction();` — the next tick is requested
before the per-frame work runs. -/
def optimizeRenderLoopBody : List FrameAction :=
  [FrameAction.scheduleNext, FrameAction.runRender]

/-- Body of `renderWithComposer`'s `render` (src/unnamed/part_001, lines
104-113): `if (customRender) customRender(); composer.render();
requestAnimationFrame(render);` — the next tick is requested only after all
per-frame work completes. -/
def renderWithComposerBody (hasCustomRender : Bool) : List FrameAction :=
  (if hasCustomRender then [FrameAction.runCustomRender] else []) ++
    [FrameAction.runComposerRender, FrameAction.scheduleNext]

/-- The actions of a body that actually execute when `throws` marks the
actions that raise: actions run in order, and the first raising action aborts
the remainder of the body (an uncaught exception propagates out of the
callback). -/
def executedActions (throws : FrameAction → Bool) : List FrameAction → List FrameAction
  | [] => []
  | a :: rest =>
      if throws a then [a] else a :: executedActions throws rest

/-- C5 (as stated) is false on the code: in `renderWithComposer`, an error
raised by the custom render function aborts the body before
`requestAnimationFrame` runs, so the next tick is never scheduled. -/
theorem renderWithComposer_error_stops_counterexample :
    FrameAction.scheduleNext ∉
      executedActions (fun a => a == FrameAction.runCustomRender)
        (renderWithComposerBody true) := by
  decide

/-- C5 amended: `optimizeRenderLoop` requests the next tick before running the
per-frame work, so a raising render function cannot prevent tick N+1; but
`renderWithComposer` requests the next tick only after `customRender` and
`composer.render` complete, so tick N+1 is scheduled iff neither raises. -/
theorem renderLoop_scheduling (throws : FrameAction → Bool) (b : Bool)
    (hs : throws FrameAction.scheduleNext = false) :
    FrameAction.scheduleNext ∈ executedActions throws optimizeRenderLoopBody ∧
      (FrameAction.scheduleNext ∈ executedActions throws (renderWithComposerBody b) ↔
        (b = true → throws FrameAction.runCustomRender = false) ∧
          throws FrameAction.runComposerRender = false) := by
  constructor
  · unfold optimizeRenderLoopBody executedActions
    cases hr : throws FrameAction.scheduleNext <;> simp [hr]
  · cases b <;>
      cases hc : throws FrameAction.runCustomRender <;>
        cases hk : throws FrameAction.runComposerRender <;>
          simp [renderWithComposerBody, executedActions, hc, hk, hs]

/-- Witness for C5's amended claim with no action raising. -/
theorem renderLoop_scheduling_witness :
    FrameAction.scheduleNext ∈
        executedActions (fun _ => false) optimizeRenderLoopBody ∧
      (FrameAction.scheduleNext ∈
          executedActions (fun _ => false) (renderWithComposerBody true) ↔
        (true = true → (fun _ => false) FrameAction.runCustomRender = false) ∧
          (fun _ => false) FrameAction.runComposerRender = false) :=
  renderLoop_scheduling (fun _ => false) true rfl
